import Mathlib

set_option linter.unusedVariables false

/-!
Verification of the TeamFlow authentication and tenant-isolation core.

The definitions below are a shallow embedding of the TypeScript source:
  - `src/server/src/modules/auth/auth.routes.ts` (AuthService, AuthController)
  - `src/server/src/modules/organizations/organization.routes.ts`
    (OrganizationService: the current version, the one wired to the routes
    and controller; it wraps organization creation in a transaction and
    carries the update/delete methods the controller calls)
  - `src/server/src/middleware/validation.middleware.ts` (validate)
  - `src/server/src/utils/jwt.util.ts` (JwtUtil)
  - the PasswordUtil class bundled with the middleware sources

Databases are lists of rows; Prisma calls become list operations
(`findUnique`/`findFirst` = `List.find?`, `deleteMany` = `List.filter`,
`update` = `List.map`).  Machine randomness (`crypto.randomUUID`,
`crypto.randomBytes`) is modelled by a fresh-value counter `nextId`
threaded through the store, and wall-clock time by an explicit `now : Nat`
argument (seconds).  Cryptography (bcrypt, SHA-256, JWT signing) is
idealised as injective tagged encodings, which is the standard
collision-free model of those collaborators.
-/

namespace Teamflow

/-- Error value raised by `ApiError` in `src/server/src/utils/ApiError.ts`:
a status code plus a message. -/
structure ApiErr where
  statusCode : Nat
  message : String
deriving DecidableEq, Repr

def ApiErr.badRequest (m : String) : ApiErr := ⟨400, m⟩

def ApiErr.unauthorized (m : String) : ApiErr := ⟨401, m⟩

def ApiErr.forbidden (m : String) : ApiErr := ⟨403, m⟩

def ApiErr.notFound (m : String) : ApiErr := ⟨404, m⟩

def ApiErr.conflict (m : String) : ApiErr := ⟨409, m⟩

def ApiErr.internal (m : String) : ApiErr := ⟨500, m⟩

/-- Signed JWT, identified with its payload, secret and expiry: `jwt.sign`
is deterministic and injective on these data, so two signed tokens are
equal exactly when these components are. -/
inductive Jwt where
  | access (secret : String) (userId : Nat) (email : String) (exp : Nat)
  | refresh (secret : String) (userId : Nat) (tokenId : Nat) (exp : Nat)
deriving DecidableEq, Repr

/-- Access-token secret from the environment configuration. -/
def accessTokenSecret : String := "access-token-secret"

/-- Refresh-token secret from the environment configuration (distinct from
the access secret). -/
def refreshTokenSecret : String := "refresh-token-secret"

/-- Access-token TTL in seconds (`parseExpiry` of the configured duration;
900 is also the fallback default in `jwt.util.ts`). -/
def accessTokenExpiry : Nat := 900

/-- Refresh-token TTL in seconds (7 days). -/
def refreshTokenExpiry : Nat := 604800

/-- PasswordUtil.hash: bcrypt with 10 salt rounds, idealised as an
injective tagged encoding of the password. -/
def passwordUtil.hash (password : String) : String :=
  "bcrypt10$" ++ password

/-- PasswordUtil.compare: bcrypt verification; true exactly on the hash of
the submitted password (collision-free idealisation). -/
def passwordUtil.compare (password stored : String) : Bool :=
  stored == passwordUtil.hash password

/-- PasswordUtil.generateResetToken: 32 random bytes hex-encoded; the
randomness source is modelled by the fresh-value counter. -/
def passwordUtil.generateResetToken (entropy : Nat) : String :=
  "resettok-" ++ toString entropy

/-- PasswordUtil.hashResetToken: SHA-256 hex digest, idealised as an
injective tagged encoding. -/
def passwordUtil.hashResetToken (token : String) : String :=
  "sha256$" ++ token

/-- Row of the User table. -/
structure UserRow where
  id : Nat
  email : String
  password : String
  firstName : String
  lastName : String
  isEmailVerified : Bool
  lastLoginAt : Option Nat
deriving DecidableEq, Repr

/-- Row of the RefreshToken table. -/
structure RefreshTokenRow where
  id : Nat
  userId : Nat
  token : Jwt
  expiresAt : Nat
deriving DecidableEq, Repr

/-- Row of the PasswordResetToken table. -/
structure PasswordResetTokenRow where
  id : Nat
  userId : Nat
  tokenHash : String
  expiresAt : Nat
  used : Bool
deriving DecidableEq, Repr

/-- Organization lifecycle status. -/
inductive OrgStatus where
  | ACTIVE
  | SUSPENDED
  | CANCELED
deriving DecidableEq, Repr

/-- Organization plan tier. -/
inductive OrgPlan where
  | FREE
  | PRO
  | ENTERPRISE
deriving DecidableEq, Repr

/-- Membership role within an organization. -/
inductive OrgRole where
  | OWNER
  | ADMIN
  | MEMBER
  | GUEST
deriving DecidableEq, Repr

/-- Printed name of a role, used in the verifyRole error message. -/
def OrgRole.toName : OrgRole → String
  | .OWNER => "OWNER"
  | .ADMIN => "ADMIN"
  | .MEMBER => "MEMBER"
  | .GUEST => "GUEST"

/-- Membership status within an organization. -/
inductive MemberStatus where
  | ACTIVE
  | INVITED
  | SUSPENDED
deriving DecidableEq, Repr

/-- Row of the Organization table. -/
structure OrganizationRow where
  id : Nat
  name : String
  slug : String
  logo : Option String
  ownerId : Nat
  plan : OrgPlan
  status : OrgStatus
deriving DecidableEq, Repr

/-- Row of the OrganizationMember table. -/
structure OrganizationMemberRow where
  id : Nat
  userId : Nat
  organizationId : Nat
  role : OrgRole
  status : MemberStatus
  joinedAt : Nat
deriving DecidableEq, Repr

/-- The relational store: one list per table, plus the fresh-value counter
that models id/randomness generation. -/
structure Db where
  users : List UserRow
  refreshTokens : List RefreshTokenRow
  passwordResetTokens : List PasswordResetTokenRow
  organizations : List OrganizationRow
  organizationMembers : List OrganizationMemberRow
  nextId : Nat
deriving DecidableEq, Repr

/-- JwtUtil.verifyRefreshToken: signature plus expiry check; expiry maps to
Unauthorized "Refresh token expired", any other failure to Unauthorized
"Invalid refresh token". -/
def verifyRefreshToken (now : Nat) (t : Jwt) : Except ApiErr (Nat × Nat) :=
  match t with
  | .refresh secret userId tokenId exp =>
    if secret == refreshTokenSecret then
      if exp ≤ now then .error (ApiErr.unauthorized "Refresh token expired")
      else .ok (userId, tokenId)
    else .error (ApiErr.unauthorized "Invalid refresh token")
  | .access _ _ _ _ => .error (ApiErr.unauthorized "Invalid refresh token")

/-- Token pair returned by AuthService.generateTokens. -/
structure Tokens where
  accessToken : Jwt
  refreshToken : Jwt
  expiresIn : Nat
deriving DecidableEq, Repr

namespace AuthService

/-- AuthService.generateTokens: sign an access token and a refresh token
(with a fresh random tokenId), persist the refresh-token ledger row with
absolute expiry now + TTL, and return the pair. -/
def generateTokens (now userId : Nat) (email : String) (db : Db) : Tokens × Db :=
  let accessToken := Jwt.access accessTokenSecret userId email (now + accessTokenExpiry)
  let refreshTokenId := db.nextId
  let refreshTok := Jwt.refresh refreshTokenSecret userId refreshTokenId (now + refreshTokenExpiry)
  let expiresAt := now + refreshTokenExpiry
  let row : RefreshTokenRow :=
    { id := refreshTokenId, userId := userId, token := refreshTok, expiresAt := expiresAt }
  ({ accessToken := accessToken, refreshToken := refreshTok, expiresIn := accessTokenExpiry },
   { db with nextId := db.nextId + 1, refreshTokens := db.refreshTokens ++ [row] })

/-- Request body of POST /auth/register. -/
structure RegisterData where
  firstName : String
  lastName : String
  email : String
  password : String
deriving DecidableEq, Repr

/-- Registration result: the created user row (the service selects a
password-free projection of it) plus the token pair. -/
structure RegisterResult where
  userId : Nat
  email : String
  tokens : Tokens
deriving DecidableEq, Repr

/-- AuthService.register: Conflict if the email is already present
(exact-match findUnique on the email column), otherwise hash the password,
create the user and issue a token pair. -/
def register (now : Nat) (data : RegisterData) (db : Db) :
    Except ApiErr RegisterResult × Db :=
  match db.users.find? (fun u => u.email == data.email) with
  | some _ => (.error (ApiErr.conflict "User with this email already exists."), db)
  | none =>
    let user : UserRow :=
      { id := db.nextId
        email := data.email
        password := passwordUtil.hash data.password
        firstName := data.firstName
        lastName := data.lastName
        isEmailVerified := false
        lastLoginAt := none }
    let db1 := { db with nextId := db.nextId + 1, users := db.users ++ [user] }
    let gen := generateTokens now user.id user.email db1
    (.ok { userId := user.id, email := user.email, tokens := gen.1 }, gen.2)

/-- Login result: the user row without the password field, plus tokens. -/
structure LoginResult where
  userId : Nat
  email : String
  tokens : Tokens
deriving DecidableEq, Repr

/-- AuthService.login: Unauthorized "Invalid Email or Password." when the
email matches no user; Unauthorized "Invalid Email or Password" when the
password does not verify (the two messages are exactly as in the source,
the first one carrying a trailing period); on success update lastLoginAt
and issue a token pair. -/
def login (now : Nat) (email password : String) (db : Db) :
    Except ApiErr LoginResult × Db :=
  match db.users.find? (fun u => u.email == email) with
  | none => (.error (ApiErr.unauthorized "Invalid Email or Password."), db)
  | some user =>
    if ¬ passwordUtil.compare password user.password then
      (.error (ApiErr.unauthorized "Invalid Email or Password"), db)
    else
      let db1 := { db with
        users := db.users.map (fun (u : UserRow) =>
          if u.id == user.id then { u with lastLoginAt := some now } else u) }
      let gen := generateTokens now user.id user.email db1
      (.ok { userId := user.id, email := user.email, tokens := gen.1 }, gen.2)

/-- AuthService.refreshToken: verify the presented token, look the raw
value up in the ledger (Unauthorized if absent), delete the stale row and
fail Unauthorized if past the stored expiry, otherwise issue a fresh pair
and delete the old row (rotation).  A dangling userId on a ledger row
cannot occur under the FK constraint of the schema; that branch surfaces
as the Prisma not-found error the error middleware maps to 404. -/
def refreshToken (now : Nat) (tok : Jwt) (db : Db) : Except ApiErr Tokens × Db :=
  match verifyRefreshToken now tok with
  | .error e => (.error e, db)
  | .ok _ =>
    match db.refreshTokens.find? (fun r => r.token == tok) with
    | none => (.error (ApiErr.unauthorized "Invalid refresh token"), db)
    | some stored =>
      if stored.expiresAt < now then
        (.error (ApiErr.unauthorized "Refresh token expired"),
         { db with refreshTokens := db.refreshTokens.filter (fun r => r.id != stored.id) })
      else
        match db.users.find? (fun u => u.id == stored.userId) with
        | none => (.error (ApiErr.notFound "Resource not found"), db)
        | some user =>
          let gen := generateTokens now user.id user.email db
          (.ok gen.1,
           { gen.2 with refreshTokens := gen.2.refreshTokens.filter (fun r => r.id != stored.id) })

/-- AuthService.changePassword: NotFound if the user is gone, Unauthorized
if the current password does not verify, otherwise store the re-hashed new
password and delete every refresh-token row of that user. -/
def changePassword (userId : Nat) (currentPassword newPassword : String) (db : Db) :
    Except ApiErr String × Db :=
  match db.users.find? (fun u => u.id == userId) with
  | none => (.error (ApiErr.notFound "User Not Found."), db)
  | some user =>
    if ¬ passwordUtil.compare currentPassword user.password then
      (.error (ApiErr.unauthorized "Current password is incorrect"), db)
    else
      let db1 := { db with
        users := db.users.map (fun (u : UserRow) =>
          if u.id == userId then { u with password := passwordUtil.hash newPassword } else u) }
      let db2 := { db1 with
        refreshTokens := db1.refreshTokens.filter (fun r => r.userId != userId) }
      (.ok "Password changed successfully", db2)

/-- Body returned by AuthService.requestPasswordReset; the raw reset token
field is present exactly when the source includes it in the object. -/
structure ForgotResult where
  message : String
  devOnly_resetToken : Option String
deriving DecidableEq, Repr

/-- AuthService.requestPasswordReset: the generic message in both branches;
when the user exists, delete all of their reset-token rows, then persist
one new hashed token with a 15-minute expiry, and return the raw token in
the devOnly_resetToken field of the result (unconditionally — the source
has no environment-mode check on this path). -/
def requestPasswordReset (now : Nat) (email : String) (db : Db) : ForgotResult × Db :=
  match db.users.find? (fun u => u.email == email) with
  | none =>
    ({ message := "If this email exists, a reset link has been sent.",
       devOnly_resetToken := none }, db)
  | some user =>
    let rawToken := passwordUtil.generateResetToken db.nextId
    let tokenHash := passwordUtil.hashResetToken rawToken
    let expiresAt := now + 15 * 60
    let cleaned := db.passwordResetTokens.filter (fun t => t.userId != user.id)
    let row : PasswordResetTokenRow :=
      { id := db.nextId + 1, userId := user.id, tokenHash := tokenHash,
        expiresAt := expiresAt, used := false }
    ({ message := "If this email exists, a reset link has been sent.",
       devOnly_resetToken := some rawToken },
     { db with nextId := db.nextId + 2, passwordResetTokens := cleaned ++ [row] })

/-- AuthService.resetPassword: look the digest of the presented token up;
one identical BadRequest message whether the row is absent, used or past
expiry; on success re-hash and store the new password, mark the token row
used (not deleted) and delete every refresh-token row of the owner. -/
def resetPassword (now : Nat) (rawToken newPassword : String) (db : Db) :
    Except ApiErr String × Db :=
  let tokenHash := passwordUtil.hashResetToken rawToken
  match db.passwordResetTokens.find? (fun t => t.tokenHash == tokenHash) with
  | none => (.error (ApiErr.badRequest "Invalid or expired reset token"), db)
  | some rt =>
    if rt.used || decide (rt.expiresAt < now) then
      (.error (ApiErr.badRequest "Invalid or expired reset token"), db)
    else
      let db1 := { db with
        users := db.users.map (fun (u : UserRow) =>
          if u.id == rt.userId then { u with password := passwordUtil.hash newPassword } else u) }
      let db2 := { db1 with
        passwordResetTokens := db1.passwordResetTokens.map (fun (t : PasswordResetTokenRow) =>
          if t.id == rt.id then { t with used := true } else t) }
      let db3 := { db2 with
        refreshTokens := db2.refreshTokens.filter (fun r => r.userId != rt.userId) }
      (.ok "Password reset successfully. Please log in with your new password.", db3)

end AuthService

namespace OrganizationService

/-- OrganizationService.verifyActiveMember: findFirst on the membership
relation for matching user, organization and ACTIVE status; Forbidden when
no row matches. -/
def verifyActiveMember (userId organizationId : Nat) (db : Db) :
    Except ApiErr OrganizationMemberRow :=
  match db.organizationMembers.find? (fun m =>
      m.userId == userId && m.organizationId == organizationId
        && m.status == MemberStatus.ACTIVE) with
  | none => .error (ApiErr.forbidden "You do not have access to this organization")
  | some m => .ok m

/-- OrganizationService.verifyRole: active membership first, then the role
must be among the allowed ones; the Forbidden message enumerates the
required roles and the actual one. -/
def verifyRole (userId organizationId : Nat) (roles : List OrgRole) (db : Db) :
    Except ApiErr OrganizationMemberRow :=
  match verifyActiveMember userId organizationId db with
  | .error e => .error e
  | .ok member =>
    if ¬ roles.contains member.role then
      .error (ApiErr.forbidden
        ("Access denied. Required role: "
          ++ String.intercalate " or " (roles.map OrgRole.toName)
          ++ ". Your role: " ++ member.role.toName))
    else .ok member

/-- Request body of POST /organizations. -/
structure OrgCreateData where
  name : String
  slug : String
  logo : Option String
deriving DecidableEq, Repr

/-- Fault injected into the creation transaction, to examine every
post-state the operation can leave: no fault, the organization insert
throwing, or the membership insert throwing between the two writes. -/
inductive TxFault where
  | noFault
  | failOrgCreate
  | failMemberCreate
deriving DecidableEq, Repr

/-- OrganizationService.createOrganization: Conflict when the slug is
taken; otherwise the organization row and the OWNER ACTIVE membership row
are created inside a single $transaction, so a throw at either write rolls
the whole transaction back and the store is left unchanged. -/
def createOrganization (fault : TxFault) (now userId : Nat) (data : OrgCreateData) (db : Db) :
    Except ApiErr OrganizationRow × Db :=
  match db.organizations.find? (fun o => o.slug == data.slug) with
  | some _ =>
    (.error (ApiErr.conflict
      ("Slug \"" ++ data.slug ++ "\" is already taken. Please choose a different slug.")), db)
  | none =>
    if fault == TxFault.failOrgCreate then
      (.error (ApiErr.internal "transaction rolled back"), db)
    else
      let org : OrganizationRow :=
        { id := db.nextId, name := data.name, slug := data.slug, logo := data.logo,
          ownerId := userId, plan := OrgPlan.FREE, status := OrgStatus.ACTIVE }
      let txDb := { db with nextId := db.nextId + 1, organizations := db.organizations ++ [org] }
      if fault == TxFault.failMemberCreate then
        (.error (ApiErr.internal "transaction rolled back"), db)
      else
        let member : OrganizationMemberRow :=
          { id := txDb.nextId, userId := userId, organizationId := org.id,
            role := OrgRole.OWNER, status := MemberStatus.ACTIVE, joinedAt := now }
        (.ok org,
         { txDb with nextId := txDb.nextId + 1,
                     organizationMembers := txDb.organizationMembers ++ [member] })

/-- PATCH /organizations/:id request body as the client may send it: the
schema knows name and logo; slug is an extra key a client can include. -/
structure UpdateOrgBody where
  name : Option String
  logo : Option String
  slug : Option String
deriving DecidableEq, Repr

/-- OrganizationService.updateOrganization: NotFound when the organization
is absent, then the OWNER/ADMIN role gate, then a Prisma update that
applies every field present in the data object it was handed — the
controller forwards req.body as-is, so a slug key present there is written
like any other column. -/
def updateOrganization (id userId : Nat) (body : UpdateOrgBody) (db : Db) :
    Except ApiErr OrganizationRow × Db :=
  match db.organizations.find? (fun o => o.id == id) with
  | none => (.error (ApiErr.notFound "Organization not found"), db)
  | some org0 =>
    match verifyRole userId id [OrgRole.OWNER, OrgRole.ADMIN] db with
    | .error e => (.error e, db)
    | .ok _ =>
      let patch := fun (o : OrganizationRow) =>
        { o with
          name := body.name.getD o.name
          logo := match body.logo with | some l => some l | none => o.logo
          slug := body.slug.getD o.slug }
      (.ok (patch org0),
       { db with organizations := db.organizations.map (fun (o : OrganizationRow) =>
           if o.id == id then patch o else o) })

/-- OrganizationService.deleteOrganization: NotFound when absent; Forbidden
unless the caller userId equals the ownerId column of the row (the
membership relation is never consulted); on success the row status is set
to CANCELED and the row stays in the table. -/
def deleteOrganization (id userId : Nat) (db : Db) : Except ApiErr String × Db :=
  match db.organizations.find? (fun o => o.id == id) with
  | none => (.error (ApiErr.notFound "Organization not found"), db)
  | some org =>
    if org.ownerId != userId then
      (.error (ApiErr.forbidden "Only the organization owner can delete the organization"), db)
    else
      (.ok "Organization deleted successfully",
       { db with organizations := db.organizations.map (fun (o : OrganizationRow) =>
           if o.id == id then { o with status := OrgStatus.CANCELED } else o) })

end OrganizationService

/-- Lowercasing of a string, character by character (model of the
JavaScript toLowerCase used by the email schema transform). -/
def strToLower (s : String) : String :=
  String.mk (s.data.map Char.toLower)

/-- Modelled from the spec: the zod email schema shape check (validation
schema definitions are an external collaborator, spec section 1); the
`.toLowerCase()` transform of `emailSchema` applies to the parse output
only.  Returns the parse output on success. -/
def zodEmailParse (s : String) : Option String :=
  if s.data.contains '@' && decide (3 ≤ s.length) then some (strToLower s) else none

/-- Punctuation set of the password-strength rule in `auth.validation.ts`
(and `PasswordUtil.validatePasswordStrength`). -/
def passwordSpecialChars : List Char :=
  ['!', '@', '#', '$', '%', '^', '&', '*', '(', ')', ',', '.', '?', '"',
   Char.ofNat 123, Char.ofNat 125, '|', '<', '>', ':']

/-- Password schema of `auth.validation.ts`: at least 8 characters, one
uppercase, one lowercase, one digit, one special character. -/
def passwordStrengthOk (p : String) : Bool :=
  decide (8 ≤ p.length)
    && p.toList.any Char.isUpper
    && p.toList.any Char.isLower
    && p.toList.any Char.isDigit
    && p.toList.any (fun c => passwordSpecialChars.contains c)

/-- Checks of `registerSchema` over the request body. -/
def validateRegisterBody (b : AuthService.RegisterData) : Bool :=
  (zodEmailParse b.email).isSome
    && passwordStrengthOk b.password
    && decide (1 ≤ b.firstName.length) && decide (b.firstName.length ≤ 50)
    && decide (1 ≤ b.lastName.length) && decide (b.lastName.length ≤ 50)

/-- POST /auth/register as wired in the routes: the validate middleware
runs `registerSchema.parseAsync` on a copy of the request and discards the
parsed output, so the controller and AuthService.register receive the
request body unchanged — in particular the email keeps its original
letter case. -/
def registerEndpoint (now : Nat) (b : AuthService.RegisterData) (db : Db) :
    Except ApiErr AuthService.RegisterResult × Db :=
  if validateRegisterBody b then AuthService.register now b db
  else (.error (ApiErr.badRequest "Validation failed"), db)

/-- Modelled from the spec: the zod url check on the logo field (validation
schemas are an external collaborator, spec section 1). -/
def isUrlString (s : String) : Bool :=
  List.isPrefixOf "http://".data s.data || List.isPrefixOf "https://".data s.data

/-- Checks of `updateOrganizationSchema` over the body: name and logo
constraints when present, and the refine that the parsed body (unknown
keys such as slug already stripped from the parse output) is nonempty.  An
unknown slug key never fails validation. -/
def validateUpdateOrganizationBody (b : OrganizationService.UpdateOrgBody) : Bool :=
  (match b.name with
   | some n => decide (2 ≤ n.length) && decide (n.length ≤ 100)
   | none => true)
    && (match b.logo with | some l => isUrlString l | none => true)
    && (b.name.isSome || b.logo.isSome)

/-- PATCH /organizations/:id as wired in the routes: validation on a
discarded copy, then the controller forwards req.body (slug key included,
when sent) to OrganizationService.updateOrganization. -/
def updateOrganizationEndpoint (id userId : Nat) (body : OrganizationService.UpdateOrgBody) (db : Db) :
    Except ApiErr OrganizationRow × Db :=
  if validateUpdateOrganizationBody body then
    OrganizationService.updateOrganization id userId body db
  else (.error (ApiErr.badRequest "Validation failed"), db)

/-- POST /auth/forgot-password as wired through AuthController: the env
parameter records the deployment mode; nothing on this code path consults
it — the service return value is sent as the response data as-is. -/
def forgotPasswordEndpoint (env : String) (now : Nat) (email : String) (db : Db) :
    AuthService.ForgotResult × Db :=
  AuthService.requestPasswordReset now email db

/-- Boolean success test on a service result. -/
def isOkB {α : Type} : Except ApiErr α → Bool
  | .ok _ => true
  | .error _ => false

/-- Boolean pairwise check over a list. -/
def pairwiseB {α : Type} (p : α → α → Bool) : List α → Bool
  | [] => true
  | x :: xs => xs.all (p x) && pairwiseB p xs

/-- TokenId of a stored refresh JWT is below the fresh-value counter. -/
def jwtTokenIdLt (n : Nat) : Jwt → Bool
  | .refresh _ _ tid _ => decide (tid < n)
  | .access _ _ _ _ => true

/-- Well-formedness of the refresh-token ledger, maintained by every
operation of the service: row ids and embedded tokenIds are below the
fresh counter, and the unique constraints of the schema hold (token column
unique, primary key unique). -/
def refreshLedgerWF (db : Db) : Bool :=
  db.refreshTokens.all (fun r => decide (r.id < db.nextId) && jwtTokenIdLt db.nextId r.token)
    && pairwiseB (fun a b => a.token != b.token && a.id != b.id) db.refreshTokens


/-- Status code of a failed result. -/
def errStatus {α : Type} : Except ApiErr α → Option Nat
  | .error e => some e.statusCode
  | .ok _ => none

/-- Message of a failed result. -/
def errMessage {α : Type} : Except ApiErr α → Option String
  | .error e => some e.message
  | .ok _ => none

/-- A store holding a single registered user, alice. -/
def aliceUser : UserRow :=
  { id := 0, email := "alice@x.com", password := passwordUtil.hash "Secret1!",
    firstName := "Alice", lastName := "A", isEmailVerified := false, lastLoginAt := none }

/-- Concrete one-user store used as test input. -/
def oneUserDb : Db :=
  { users := [aliceUser], refreshTokens := [], passwordResetTokens := [],
    organizations := [], organizationMembers := [], nextId := 1 }

/-- C4: the code violates the claim.  With alice registered, the login
failure for an unknown email carries the message with a trailing period
while the wrong-password failure carries the message without it: both are
Unauthorized (401) but the bodies are not byte-identical. -/
theorem login_enumeration_messages_differ :
    errStatus (AuthService.login 0 "unknown@x.com" "Whatever1!" oneUserDb).1 = some 401 ∧
    errMessage (AuthService.login 0 "unknown@x.com" "Whatever1!" oneUserDb).1
        = some "Invalid Email or Password." ∧
    errStatus (AuthService.login 0 "alice@x.com" "WrongPass1!" oneUserDb).1 = some 401 ∧
    errMessage (AuthService.login 0 "alice@x.com" "WrongPass1!" oneUserDb).1
        = some "Invalid Email or Password" ∧
    "Invalid Email or Password." ≠ "Invalid Email or Password" := by
  refine ⟨?_, ?_, ?_, ?_, ?_⟩ <;> decide

/-- C5: the code violates the claim.  In production mode, the
forgot-password response for an existing email still carries the raw reset
token in devOnly_resetToken: nothing on the code path consults the
environment mode (the result is independent of it). -/
theorem forgot_password_production_returns_raw_token :
    (forgotPasswordEndpoint "production" 0 "alice@x.com" oneUserDb).1.devOnly_resetToken
        = some (passwordUtil.generateResetToken 1) ∧
    (∀ env1 env2 : String,
       forgotPasswordEndpoint env1 0 "alice@x.com" oneUserDb
         = forgotPasswordEndpoint env2 0 "alice@x.com" oneUserDb) ∧
    (forgotPasswordEndpoint "production" 0 "missing@x.com" oneUserDb).1.message
        = (forgotPasswordEndpoint "production" 0 "alice@x.com" oneUserDb).1.message := by
  exact ⟨by decide, fun e1 e2 => rfl, by decide⟩

/-- Registration body whose email differs from the stored one only in
letter case. -/
def caseVariantRegisterBody : AuthService.RegisterData :=
  { firstName := "Bob", lastName := "B", email := "Alice@x.com", password := "Secret1!" }

/-- C6: the code violates the claim.  The register endpoint accepts an
email differing from a registered one only in case: the validate
middleware discards the lowercased parse output, the service compares the
original-case email, finds no match, and creates a second User row — no
Conflict is raised. -/
theorem register_case_variant_email_creates_duplicate :
    validateRegisterBody caseVariantRegisterBody = true ∧
    isOkB (registerEndpoint 0 caseVariantRegisterBody oneUserDb).1 = true ∧
    (registerEndpoint 0 caseVariantRegisterBody oneUserDb).2.users.length = 2 ∧
    ((registerEndpoint 0 caseVariantRegisterBody oneUserDb).2.users.filter
        (fun u => strToLower u.email == "alice@x.com")).length = 2 := by
  refine ⟨?_, ?_, ?_, ?_⟩ <;> decide

/-- Owner of the concrete organization store. -/
def orgOwner : UserRow :=
  { id := 10, email := "owner@x.com", password := passwordUtil.hash "Secret1!",
    firstName := "O", lastName := "W", isEmailVerified := true, lastLoginAt := none }

/-- Concrete store with one organization (id 1, slug acme, owner 10) whose
owner holds an ACTIVE OWNER membership, plus an ACTIVE ADMIN member 11. -/
def orgDb : Db :=
  { users := [orgOwner],
    refreshTokens := [], passwordResetTokens := [],
    organizations := [{ id := 1, name := "Acme", slug := "acme", logo := none,
                        ownerId := 10, plan := OrgPlan.FREE, status := OrgStatus.ACTIVE }],
    organizationMembers := [{ id := 2, userId := 10, organizationId := 1,
                              role := OrgRole.OWNER, status := MemberStatus.ACTIVE, joinedAt := 0 },
                            { id := 3, userId := 11, organizationId := 1,
                              role := OrgRole.ADMIN, status := MemberStatus.ACTIVE, joinedAt := 0 }],
    nextId := 20 }

/-- PATCH body carrying a name change together with a slug key. -/
def slugPatchBody : OrganizationService.UpdateOrgBody :=
  { name := some "Acme Two", logo := none, slug := some "evil-slug" }

/-- C7: the code violates the claim.  A PATCH payload that carries a slug
key beside a legitimate name change passes validation (the schema strips
unknown keys from its discarded output only), and the slug value is
written to the store by the forwarded-body update. -/
theorem update_organization_payload_slug_is_applied :
    validateUpdateOrganizationBody slugPatchBody = true ∧
    isOkB (updateOrganizationEndpoint 1 10 slugPatchBody orgDb).1 = true ∧
    (((updateOrganizationEndpoint 1 10 slugPatchBody orgDb).2.organizations.find?
        (fun o => o.id == 1)).map (fun (o : OrganizationRow) => o.slug)) = some "evil-slug" := by
  refine ⟨?_, ?_, ?_⟩ <;> decide


/-- Everything kept by a filter satisfies the filtering predicate. -/
theorem filter_all_self {α : Type} (p : α → Bool) (l : List α) :
    (l.filter p).all p = true := by
  rw [List.all_eq_true]
  exact fun a ha => (List.mem_filter.mp ha).2

/-- C2: changePassword and resetPassword, on success, leave zero
refresh-token rows for the affected user: both operations end by deleting
every ledger row whose userId is the user whose password was set (the
owner of the presented reset token in the resetPassword case). -/
theorem password_change_and_reset_revoke_all_sessions
    (userId now : Nat) (cur npw raw rnpw r rr : String)
    (db dbr db' dbr' : Db) (prt : PasswordResetTokenRow)
    (hcp : AuthService.changePassword userId cur npw db = (Except.ok r, db'))
    (hfind : dbr.passwordResetTokens.find?
        (fun t => t.tokenHash == passwordUtil.hashResetToken raw) = some prt)
    (hrp : AuthService.resetPassword now raw rnpw dbr = (Except.ok rr, dbr')) :
    db'.refreshTokens.all (fun rt => rt.userId != userId) = true ∧
    dbr'.refreshTokens.all (fun rt => rt.userId != prt.userId) = true := by
  constructor
  · unfold AuthService.changePassword at hcp
    split at hcp
    · simp at hcp
    · split at hcp
      · simp at hcp
      · simp only [Prod.mk.injEq, Except.ok.injEq] at hcp
        obtain ⟨-, rfl⟩ := hcp
        exact filter_all_self _ _
  · unfold AuthService.resetPassword at hrp
    simp only [hfind] at hrp
    split at hrp
    · simp at hrp
    · simp only [Prod.mk.injEq, Except.ok.injEq] at hrp
      obtain ⟨-, rfl⟩ := hrp
      exact filter_all_self _ _


/-- Rows deleted by userId cannot survive a later filter for that same
userId. -/
theorem reset_rows_filter_ne_then_eq (n : Nat) (l : List PasswordResetTokenRow) :
    (l.filter (fun t => t.userId != n)).filter (fun t => t.userId == n) = [] := by
  induction l with
  | nil => rfl
  | cons x xs ih =>
    by_cases h : x.userId = n <;> simp [List.filter_cons, h, ih]

/-- C8: requestPasswordReset deletes every reset-token row of the user and
then creates exactly one, so one call for an existing user leaves exactly
one row for that user, and a second call in succession still leaves
exactly one. -/
theorem request_password_reset_single_live_row
    (now1 now2 : Nat) (email : String) (db : Db) (u : UserRow)
    (hu : db.users.find? (fun x => x.email == email) = some u) :
    ((AuthService.requestPasswordReset now1 email db).2.passwordResetTokens.filter
        (fun t => t.userId == u.id)).length = 1 ∧
    ((AuthService.requestPasswordReset now2 email
        (AuthService.requestPasswordReset now1 email db).2).2.passwordResetTokens.filter
        (fun t => t.userId == u.id)).length = 1 := by
  have hstep : ∀ (now : Nat) (d : Db), d.users = db.users →
      ((AuthService.requestPasswordReset now email d).2.passwordResetTokens.filter
          (fun t => t.userId == u.id)).length = 1 ∧
      (AuthService.requestPasswordReset now email d).2.users = db.users := by
    intro now d hd
    unfold AuthService.requestPasswordReset
    rw [hd, hu]
    refine ⟨?_, rfl⟩
    simp [List.filter_append, reset_rows_filter_ne_then_eq]
  refine ⟨(hstep now1 db rfl).1, ?_⟩
  exact (hstep now2 _ (hstep now1 db rfl).2).1

/-- C9: deleteOrganization is Forbidden for every caller other than the
ownerId user (an ADMIN member in particular), and for the owner it
succeeds, keeps the table length unchanged and leaves the row present with
status CANCELED. -/
theorem delete_organization_owner_only_soft
    (id intruder : Nat) (db : Db) (org : OrganizationRow)
    (hfind : db.organizations.find? (fun o => o.id == id) = some org)
    (hneq : intruder ≠ org.ownerId) :
    OrganizationService.deleteOrganization id intruder db
        = (Except.error (ApiErr.forbidden
            "Only the organization owner can delete the organization"), db) ∧
    (OrganizationService.deleteOrganization id org.ownerId db).1
        = Except.ok "Organization deleted successfully" ∧
    (OrganizationService.deleteOrganization id org.ownerId db).2.organizations.length
        = db.organizations.length ∧
    (OrganizationService.deleteOrganization id org.ownerId db).2.organizations.any
        (fun o => o.id == org.id && o.status == OrgStatus.CANCELED) = true := by
  have horgid : (org.id == id) = true := by simpa using List.find?_some hfind
  have hmem : org ∈ db.organizations := List.mem_of_find?_eq_some hfind
  unfold OrganizationService.deleteOrganization
  rw [hfind]
  have hbne : (org.ownerId != intruder) = true := by
    simp only [bne_iff_ne, ne_eq]
    exact fun h => hneq h.symm
  refine ⟨by simp [hbne], by simp, by simp, ?_⟩
  simp only [bne_self_eq_false, Bool.false_eq_true, if_false, List.any_eq_true]
  refine ⟨{ org with status := OrgStatus.CANCELED }, ?_, by simp⟩
  have := List.mem_map_of_mem
    (fun (o : OrganizationRow) =>
      if o.id == id then { o with status := OrgStatus.CANCELED } else o) hmem
  simpa [horgid] using this

/-- C10: deleteOrganization authorizes by identity alone: given the
organization exists, the call is Forbidden exactly when the caller is not
the ownerId user and succeeds exactly when the caller is, and its result
and organization-table effect are invariant under any replacement of the
membership relation, which it never reads or writes. -/
theorem delete_organization_identity_only
    (id userId : Nat) (db : Db) (org : OrganizationRow)
    (ms : List OrganizationMemberRow)
    (hfind : db.organizations.find? (fun o => o.id == id) = some org) :
    (errStatus (OrganizationService.deleteOrganization id userId db).1 = some 403
        ↔ userId ≠ org.ownerId) ∧
    (isOkB (OrganizationService.deleteOrganization id userId db).1 = true
        ↔ userId = org.ownerId) ∧
    (OrganizationService.deleteOrganization id userId
        { db with organizationMembers := ms }).1
      = (OrganizationService.deleteOrganization id userId db).1 ∧
    (OrganizationService.deleteOrganization id userId
        { db with organizationMembers := ms }).2.organizations
      = (OrganizationService.deleteOrganization id userId db).2.organizations ∧
    (OrganizationService.deleteOrganization id userId
        { db with organizationMembers := ms }).2.organizationMembers = ms := by
  unfold OrganizationService.deleteOrganization
  rw [hfind]
  by_cases h : org.ownerId = userId
  · simp [h, errStatus, isOkB]
  · have hbne : (org.ownerId != userId) = true := by simp [bne_iff_ne, h]
    simp [hbne, errStatus, isOkB, ApiErr.forbidden]
    exact fun hx => h hx.symm


/-- C3: createOrganization is atomic over its two writes: in every
post-state — success, slug conflict, or an injected throw at either write
of the transaction — the new organization row (id = the fresh id) is
present exactly when the ACTIVE OWNER membership row of the creator for
that organization is present; and on success both are present. -/
theorem create_organization_atomic
    (fault : OrganizationService.TxFault) (now userId : Nat)
    (data : OrganizationService.OrgCreateData) (db : Db)
    (hfreshOrg : db.organizations.all (fun o => decide (o.id < db.nextId)) = true)
    (hfreshMem : db.organizationMembers.all
        (fun m => decide (m.organizationId < db.nextId)) = true) :
    ((OrganizationService.createOrganization fault now userId data db).2.organizations.any
        (fun o => o.id == db.nextId) = true
      ↔ (OrganizationService.createOrganization fault now userId data db).2.organizationMembers.any
        (fun m => m.organizationId == db.nextId && m.userId == userId
            && m.role == OrgRole.OWNER && m.status == MemberStatus.ACTIVE) = true) ∧
    (isOkB (OrganizationService.createOrganization fault now userId data db).1 = true →
      (OrganizationService.createOrganization fault now userId data db).2.organizations.any
          (fun o => o.id == db.nextId) = true ∧
      (OrganizationService.createOrganization fault now userId data db).2.organizationMembers.any
          (fun m => m.organizationId == db.nextId && m.userId == userId
              && m.role == OrgRole.OWNER && m.status == MemberStatus.ACTIVE) = true) := by
  have hOrg : db.organizations.any (fun o => o.id == db.nextId) = false := by
    rw [List.any_eq_false]
    intro o ho
    have hlt := List.all_eq_true.mp hfreshOrg o ho
    simp only [decide_eq_true_eq] at hlt
    simp only [beq_iff_eq]
    omega
  have hMem : db.organizationMembers.any
      (fun m => m.organizationId == db.nextId && m.userId == userId
          && m.role == OrgRole.OWNER && m.status == MemberStatus.ACTIVE) = false := by
    rw [List.any_eq_false]
    intro m hm
    have hlt := List.all_eq_true.mp hfreshMem m hm
    simp only [decide_eq_true_eq] at hlt
    intro hcontra
    cases ha : (m.organizationId == db.nextId) with
    | false => simp [ha] at hcontra
    | true =>
      have : m.organizationId = db.nextId := by simpa using ha
      omega
  unfold OrganizationService.createOrganization
  split
  · simp [hOrg, hMem, isOkB]
  · split
    · simp [hOrg, hMem, isOkB]
    · split
      · simp [hOrg, hMem, isOkB]
      · simp [List.any_append, hOrg, hMem, isOkB]


/-- Distinctness of tokens and primary keys between every two distinct
rows of a pairwiseB-checked ledger. -/
theorem pairwiseB_refresh_distinct {l : List RefreshTokenRow}
    (h : pairwiseB (fun a b => a.token != b.token && a.id != b.id) l = true) :
    ∀ a ∈ l, ∀ b ∈ l, a ≠ b → a.token ≠ b.token ∧ a.id ≠ b.id := by
  induction l with
  | nil =>
    intro a ha
    exact absurd ha (List.not_mem_nil a)
  | cons x xs ih =>
    simp only [pairwiseB, Bool.and_eq_true, List.all_eq_true] at h
    obtain ⟨hx, hrec⟩ := h
    intro a ha b hb hab
    rcases List.mem_cons.mp ha with rfl | ha2
    · rcases List.mem_cons.mp hb with rfl | hb2
      · exact absurd rfl hab
      · have hxb := hx b hb2
        simp only [Bool.and_eq_true, bne_iff_ne, ne_eq] at hxb
        exact hxb
    · rcases List.mem_cons.mp hb with rfl | hb2
      · have hxa := hx a ha2
        simp only [Bool.and_eq_true, bne_iff_ne, ne_eq] at hxa
        exact ⟨fun hh => hxa.1 hh.symm, fun hh => hxa.2 hh.symm⟩
      · exact ih hrec a ha2 b hb2 hab

/-- Every failure of verifyRefreshToken is an Unauthorized error. -/
theorem verifyRefreshToken_error_status (n : Nat) (t : Jwt) (e : ApiErr)
    (h : verifyRefreshToken n t = Except.error e) : e.statusCode = 401 := by
  cases t with
  | access s u em ex =>
    simp only [verifyRefreshToken, Except.error.injEq] at h
    subst h
    rfl
  | refresh s u tid ex =>
    simp only [verifyRefreshToken] at h
    split at h
    · split at h
      · simp only [Except.error.injEq] at h
        subst h
        rfl
      · simp at h
    · simp only [Except.error.injEq] at h
      subst h
      rfl

/-- A successfully verified refresh token is a refresh JWT under the
refresh secret, not yet expired. -/
theorem verifyRefreshToken_ok_shape (n : Nat) (t : Jwt) (p : Nat × Nat)
    (h : verifyRefreshToken n t = Except.ok p) :
    ∃ exp, t = Jwt.refresh refreshTokenSecret p.1 p.2 exp ∧ n < exp := by
  cases t with
  | access s u em ex => simp [verifyRefreshToken] at h
  | refresh s u tid ex =>
    simp only [verifyRefreshToken] at h
    split at h
    · split at h
      · simp at h
      · rename_i hsec hexp
        simp only [Except.ok.injEq] at h
        subst h
        have hs : s = refreshTokenSecret := by simpa using hsec
        exact ⟨ex, by rw [hs], by omega⟩
    · simp at h

/-- The ledger row persisted for a freshly rotated refresh token. -/
def rotatedRow (now userId tokenId : Nat) : RefreshTokenRow :=
  { id := tokenId, userId := userId,
    token := Jwt.refresh refreshTokenSecret userId tokenId (now + refreshTokenExpiry),
    expiresAt := now + refreshTokenExpiry }

/-- C1: refresh rotation is strict one-time-use.  After a refreshToken
call succeeds, no ledger row holds the consumed token; a second call
presenting the same token, at any later time, fails with a 401
Unauthorized error; and a call presenting the freshly issued refresh
token, made before its expiry, succeeds. -/
theorem refresh_rotation_strict_one_time_use
    (db : Db) (now now2 now3 : Nat) (tok : Jwt) (tk : Tokens) (db2 : Db)
    (hwf : refreshLedgerWF db = true)
    (hok : AuthService.refreshToken now tok db = (Except.ok tk, db2))
    (h3 : now3 < now + refreshTokenExpiry) :
    db2.refreshTokens.all (fun r => r.token != tok) = true ∧
    errStatus (AuthService.refreshToken now2 tok db2).1 = some 401 ∧
    isOkB (AuthService.refreshToken now3 tk.refreshToken db2).1 = true := by
  unfold refreshLedgerWF at hwf
  simp only [Bool.and_eq_true, List.all_eq_true, decide_eq_true_eq] at hwf
  obtain ⟨hbound, hpair⟩ := hwf
  unfold AuthService.refreshToken at hok
  split at hok
  · simp at hok
  · rename_i payload hv
    split at hok
    · simp at hok
    · rename_i stored hfind
      split at hok
      · simp at hok
      · rename_i hexp
        split at hok
        · simp at hok
        · rename_i user huser
          simp only [AuthService.generateTokens, Prod.mk.injEq, Except.ok.injEq] at hok
          obtain ⟨htk, hdb2⟩ := hok
          have hstored_mem : stored ∈ db.refreshTokens := List.mem_of_find?_eq_some hfind
          have hstored_tok : stored.token = tok := by simpa using List.find?_some hfind
          have huid : user.id = stored.userId := by simpa using List.find?_some huser
          obtain ⟨hsid, hstid⟩ := hbound stored hstored_mem
          obtain ⟨exp0, htok_shape, hexp0⟩ := verifyRefreshToken_ok_shape now tok payload hv
          have htid : payload.2 < db.nextId := by
            rw [hstored_tok, htok_shape] at hstid
            simpa [jwtTokenIdLt] using hstid
          have hRT : db2.refreshTokens
              = (db.refreshTokens ++ [rotatedRow now user.id db.nextId]).filter
                  (fun r => r.id != stored.id) := by
            rw [← hdb2]
            rfl
          have hUsers2 : db2.users = db.users := by
            rw [← hdb2]
          have htkr : tk.refreshToken
              = Jwt.refresh refreshTokenSecret user.id db.nextId (now + refreshTokenExpiry) := by
            rw [← htk]
          have hA : ∀ r ∈ db2.refreshTokens, r.token ≠ tok := by
            rw [hRT]
            intro r hr
            obtain ⟨hrmem, hrid⟩ := List.mem_filter.mp hr
            simp only [bne_iff_ne, ne_eq] at hrid
            intro hrtok
            rcases List.mem_append.mp hrmem with hold | hnew
            · by_cases hreq : r = stored
              · exact hrid (by rw [hreq])
              · exact (pairwiseB_refresh_distinct hpair r hold stored hstored_mem hreq).1
                  (hrtok.trans hstored_tok.symm)
            · simp only [List.mem_singleton] at hnew
              subst hnew
              rw [htok_shape] at hrtok
              simp only [rotatedRow, Jwt.refresh.injEq] at hrtok
              obtain ⟨-, -, htid_eq, -⟩ := hrtok
              omega
          refine ⟨?_, ?_, ?_⟩
          · rw [List.all_eq_true]
            intro r hr
            exact bne_iff_ne.mpr (hA r hr)
          · unfold AuthService.refreshToken
            cases hv2 : verifyRefreshToken now2 tok with
            | error e2 =>
              have h401 := verifyRefreshToken_error_status now2 tok e2 hv2
              simp [errStatus, h401]
            | ok p2 =>
              have hnone : db2.refreshTokens.find? (fun r => r.token == tok) = none :=
                List.find?_eq_none.mpr (fun r hr => by
                  simp only [beq_iff_eq]
                  exact hA r hr)
              rw [hnone]
              simp [errStatus, ApiErr.unauthorized]
          · unfold AuthService.refreshToken
            rw [htkr]
            have hver : verifyRefreshToken now3
                (Jwt.refresh refreshTokenSecret user.id db.nextId (now + refreshTokenExpiry))
                = Except.ok (user.id, db.nextId) := by
              have hle : ¬ (now + refreshTokenExpiry ≤ now3) := by omega
              simp [verifyRefreshToken, hle]
            have hsingle : ([rotatedRow now user.id db.nextId] : List RefreshTokenRow).filter
                (fun r => r.id != stored.id) = [rotatedRow now user.id db.nextId] := by
              have hne : ((rotatedRow now user.id db.nextId).id != stored.id) = true := by
                simp only [rotatedRow, bne_iff_ne, ne_eq]
                omega
              simp [List.filter_cons, hne]
            have hfirst : (db.refreshTokens.filter (fun r => r.id != stored.id)).find?
                (fun r => r.token == Jwt.refresh refreshTokenSecret user.id db.nextId
                  (now + refreshTokenExpiry)) = none := by
              rw [List.find?_eq_none]
              intro r hr
              have hrmem := (List.mem_filter.mp hr).1
              have hb := hbound r hrmem
              simp only [beq_iff_eq]
              intro hq
              rw [hq] at hb
              simp [jwtTokenIdLt] at hb
            have hfind2 : db2.refreshTokens.find?
                (fun r => r.token == Jwt.refresh refreshTokenSecret user.id db.nextId
                  (now + refreshTokenExpiry)) = some (rotatedRow now user.id db.nextId) := by
              rw [hRT, List.filter_append, hsingle, List.find?_append, hfirst]
              simp [rotatedRow]
            have hnotexp : ¬ (now + refreshTokenExpiry < now3) := by omega
            have huser2 : db.users.find? (fun u2 => u2.id == user.id) = some user := by
              rw [huid]
              exact huser
            simp [hver, hfind2, rotatedRow, hnotexp, hUsers2, huser2, isOkB]


/-- Refresh token presented in the concrete rotation scenario. -/
def c1tok : Jwt := Jwt.refresh refreshTokenSecret 0 1 (100 + refreshTokenExpiry)

/-- Store holding alice and one live refresh-token ledger row. -/
def c1db : Db :=
  { users := [aliceUser],
    refreshTokens := [{ id := 1, userId := 0, token := c1tok,
                        expiresAt := 100 + refreshTokenExpiry }],
    passwordResetTokens := [], organizations := [], organizationMembers := [],
    nextId := 2 }

/-- Token pair issued by the concrete rotation call. -/
def c1tk : Tokens :=
  { accessToken := Jwt.access accessTokenSecret 0 "alice@x.com" (100 + accessTokenExpiry),
    refreshToken := Jwt.refresh refreshTokenSecret 0 2 (100 + refreshTokenExpiry),
    expiresIn := accessTokenExpiry }

/-- Store after the concrete rotation call: old row gone, fresh row live. -/
def c1dbAfter : Db :=
  { users := [aliceUser],
    refreshTokens := [{ id := 2, userId := 0,
                        token := Jwt.refresh refreshTokenSecret 0 2 (100 + refreshTokenExpiry),
                        expiresAt := 100 + refreshTokenExpiry }],
    passwordResetTokens := [], organizations := [], organizationMembers := [],
    nextId := 3 }

/-- Concrete instance of the rotation theorem: one successful refresh at
time 100, re-presentation of the consumed token at time 500 rejected 401,
the fresh token accepted. -/
theorem refresh_rotation_strict_one_time_use_witness :
    refreshLedgerWF c1db = true ∧
    AuthService.refreshToken 100 c1tok c1db = (Except.ok c1tk, c1dbAfter) ∧
    100 < 100 + refreshTokenExpiry ∧
    (c1dbAfter.refreshTokens.all (fun r => r.token != c1tok) = true ∧
     errStatus (AuthService.refreshToken 500 c1tok c1dbAfter).1 = some 401 ∧
     isOkB (AuthService.refreshToken 100 c1tk.refreshToken c1dbAfter).1 = true) :=
  ⟨by decide, rfl, by decide,
   refresh_rotation_strict_one_time_use c1db 100 500 100 c1tok c1tk c1dbAfter
     (by decide) rfl (by decide)⟩

/-- A live session row for alice. -/
def c2SessionRow : RefreshTokenRow :=
  { id := 5, userId := 0, token := Jwt.refresh refreshTokenSecret 0 5 9000, expiresAt := 9000 }

/-- Store in which alice has one live session. -/
def c2Db : Db :=
  { users := [aliceUser], refreshTokens := [c2SessionRow], passwordResetTokens := [],
    organizations := [], organizationMembers := [], nextId := 6 }

/-- Store after the concrete changePassword call. -/
def c2DbAfter : Db :=
  { users := [{ aliceUser with password := passwordUtil.hash "NewSecret1!" }],
    refreshTokens := [], passwordResetTokens := [],
    organizations := [], organizationMembers := [], nextId := 6 }

/-- A live reset-token row for alice. -/
def c2ResetRow : PasswordResetTokenRow :=
  { id := 7, userId := 0, tokenHash := passwordUtil.hashResetToken "tok123",
    expiresAt := 9000, used := false }

/-- Store in which alice has one live session and one live reset token. -/
def c2DbR : Db :=
  { users := [aliceUser], refreshTokens := [c2SessionRow],
    passwordResetTokens := [c2ResetRow],
    organizations := [], organizationMembers := [], nextId := 8 }

/-- Store after the concrete resetPassword call: the token row kept but
marked used, the session rows gone. -/
def c2DbRAfter : Db :=
  { users := [{ aliceUser with password := passwordUtil.hash "NewSecret2!" }],
    refreshTokens := [], passwordResetTokens := [{ c2ResetRow with used := true }],
    organizations := [], organizationMembers := [], nextId := 8 }

/-- Concrete instance of the session-revocation theorem. -/
theorem password_change_and_reset_revoke_all_sessions_witness :
    AuthService.changePassword 0 "Secret1!" "NewSecret1!" c2Db
        = (Except.ok "Password changed successfully", c2DbAfter) ∧
    c2DbR.passwordResetTokens.find?
        (fun t => t.tokenHash == passwordUtil.hashResetToken "tok123") = some c2ResetRow ∧
    AuthService.resetPassword 0 "tok123" "NewSecret2!" c2DbR
        = (Except.ok "Password reset successfully. Please log in with your new password.",
           c2DbRAfter) ∧
    (c2DbAfter.refreshTokens.all (fun rt => rt.userId != 0) = true ∧
     c2DbRAfter.refreshTokens.all (fun rt => rt.userId != c2ResetRow.userId) = true) :=
  ⟨rfl, by decide, rfl,
   password_change_and_reset_revoke_all_sessions 0 0 "Secret1!" "NewSecret1!" "tok123"
     "NewSecret2!" "Password changed successfully"
     "Password reset successfully. Please log in with your new password."
     c2Db c2DbR c2DbAfter c2DbRAfter c2ResetRow rfl (by decide) rfl⟩

/-- Creation payload of the concrete transactional scenario. -/
def c3data : OrganizationService.OrgCreateData :=
  { name := "Acme", slug := "acme", logo := none }

/-- Concrete instance of the atomicity theorem, with the injected failure
between the two writes: the rolled-back store holds neither the
organization row nor the membership row. -/
theorem create_organization_atomic_witness :
    oneUserDb.organizations.all (fun o => decide (o.id < oneUserDb.nextId)) = true ∧
    oneUserDb.organizationMembers.all
        (fun m => decide (m.organizationId < oneUserDb.nextId)) = true ∧
    (((OrganizationService.createOrganization
          OrganizationService.TxFault.failMemberCreate 0 0 c3data oneUserDb).2.organizations.any
        (fun o => o.id == oneUserDb.nextId) = true
      ↔ (OrganizationService.createOrganization
          OrganizationService.TxFault.failMemberCreate 0 0 c3data oneUserDb).2.organizationMembers.any
        (fun m => m.organizationId == oneUserDb.nextId && m.userId == 0
            && m.role == OrgRole.OWNER && m.status == MemberStatus.ACTIVE) = true) ∧
     (isOkB (OrganizationService.createOrganization
          OrganizationService.TxFault.failMemberCreate 0 0 c3data oneUserDb).1 = true →
       (OrganizationService.createOrganization
          OrganizationService.TxFault.failMemberCreate 0 0 c3data oneUserDb).2.organizations.any
           (fun o => o.id == oneUserDb.nextId) = true ∧
       (OrganizationService.createOrganization
          OrganizationService.TxFault.failMemberCreate 0 0 c3data oneUserDb).2.organizationMembers.any
           (fun m => m.organizationId == oneUserDb.nextId && m.userId == 0
               && m.role == OrgRole.OWNER && m.status == MemberStatus.ACTIVE) = true)) :=
  ⟨by decide, by decide,
   create_organization_atomic OrganizationService.TxFault.failMemberCreate 0 0 c3data
     oneUserDb (by decide) (by decide)⟩

/-- Concrete instance of the single-live-reset-token theorem: two calls in
succession for alice leave exactly one row each time. -/
theorem request_password_reset_single_live_row_witness :
    oneUserDb.users.find? (fun x => x.email == "alice@x.com") = some aliceUser ∧
    (((AuthService.requestPasswordReset 0 "alice@x.com" oneUserDb).2.passwordResetTokens.filter
        (fun t => t.userId == aliceUser.id)).length = 1 ∧
     ((AuthService.requestPasswordReset 7 "alice@x.com"
        (AuthService.requestPasswordReset 0 "alice@x.com" oneUserDb).2).2.passwordResetTokens.filter
        (fun t => t.userId == aliceUser.id)).length = 1) :=
  ⟨by decide,
   request_password_reset_single_live_row 0 7 "alice@x.com" oneUserDb aliceUser (by decide)⟩

/-- The organization row of the concrete store orgDb. -/
def acmeOrg : OrganizationRow :=
  { id := 1, name := "Acme", slug := "acme", logo := none, ownerId := 10,
    plan := OrgPlan.FREE, status := OrgStatus.ACTIVE }

/-- Concrete instance of the owner-only soft delete theorem: caller 11 is
the ACTIVE ADMIN member of the organization and is rejected Forbidden; the
owner call leaves the row present with status CANCELED. -/
theorem delete_organization_owner_only_soft_witness :
    orgDb.organizations.find? (fun o => o.id == 1) = some acmeOrg ∧
    (11 : Nat) ≠ acmeOrg.ownerId ∧
    (OrganizationService.deleteOrganization 1 11 orgDb
        = (Except.error (ApiErr.forbidden
            "Only the organization owner can delete the organization"), orgDb) ∧
     (OrganizationService.deleteOrganization 1 acmeOrg.ownerId orgDb).1
        = Except.ok "Organization deleted successfully" ∧
     (OrganizationService.deleteOrganization 1 acmeOrg.ownerId orgDb).2.organizations.length
        = orgDb.organizations.length ∧
     (OrganizationService.deleteOrganization 1 acmeOrg.ownerId orgDb).2.organizations.any
        (fun o => o.id == acmeOrg.id && o.status == OrgStatus.CANCELED) = true) :=
  ⟨by decide, by decide,
   delete_organization_owner_only_soft 1 11 orgDb acmeOrg (by decide) (by decide)⟩

/-- Concrete instance of the identity-only authorization theorem: the
ownerId caller, and an empty membership relation — the owner still
succeeds with no ACTIVE membership row present. -/
theorem delete_organization_identity_only_witness :
    orgDb.organizations.find? (fun o => o.id == 1) = some acmeOrg ∧
    ((errStatus (OrganizationService.deleteOrganization 1 10 orgDb).1 = some 403
        ↔ (10 : Nat) ≠ acmeOrg.ownerId) ∧
     (isOkB (OrganizationService.deleteOrganization 1 10 orgDb).1 = true
        ↔ (10 : Nat) = acmeOrg.ownerId) ∧
     (OrganizationService.deleteOrganization 1 10
        { orgDb with organizationMembers := [] }).1
        = (OrganizationService.deleteOrganization 1 10 orgDb).1 ∧
     (OrganizationService.deleteOrganization 1 10
        { orgDb with organizationMembers := [] }).2.organizations
        = (OrganizationService.deleteOrganization 1 10 orgDb).2.organizations ∧
     (OrganizationService.deleteOrganization 1 10
        { orgDb with organizationMembers := [] }).2.organizationMembers = []) :=
  ⟨by decide,
   delete_organization_identity_only 1 10 orgDb acmeOrg [] (by decide)⟩

end Teamflow
